import Mathlib

/-!
Verification of the snapshot record/replay harness of `gh-project-import`.

The repository contains two variants of the harness:
* `snapshot.go` — the "lenient" variant: `executeWithSnapshot` replays purely
  by position (`getNextCall` performs no method/URL validation);
* the unnamed second variant ("strict"): `replayCall` validates the recorded
  method and URL of the popped interaction against the requested one.

Go values that hold serialized JSON documents are modelled by a `Json` AST;
the Go string a document denotes is `Json.render` of the AST (matching the
byte output of `encoding/json.Marshal` for the constructs that occur here).
Clock reads (`time.Now()`) are passed in explicitly as `Nat` parameters, the
file system is a function from paths to optional parsed snapshots, and the
real network client's outcome is an explicit `Except String` parameter.
-/

/-- JSON documents, as produced and consumed by `encoding/json`. -/
inductive Json where
  | null
  | bool (b : Bool)
  | num (n : Int)
  | str (s : String)
  | arr (elems : List Json)
  | obj (fields : List (String × Json))
deriving Repr

/-- Escaping of one character inside a JSON string literal, as done by
`encoding/json.Marshal` (which HTML-escapes by default). -/
def jsonEscapeChar (c : Char) : String :=
  if c = '"' then "\\\""
  else if c = '\\' then "\\\\"
  else if c = '\n' then "\\n"
  else if c = '\t' then "\\t"
  else if c = '\r' then "\\r"
  else if c = '<' then "\\u003c"
  else if c = '>' then "\\u003e"
  else if c = '&' then "\\u0026"
  else String.singleton c

/-- Escape a whole string for inclusion in a JSON document. -/
def jsonEscape (s : String) : String :=
  String.join (s.data.map jsonEscapeChar)

mutual
/-- The compact serialization `encoding/json.Marshal` produces for a
document (no whitespace, fields in declaration order). -/
def Json.render : Json → String
  | .null => "null"
  | .bool b => cond b "true" "false"
  | .num n => toString n
  | .str s => "\"" ++ jsonEscape s ++ "\""
  | .arr elems => "[" ++ Json.renderList elems ++ "]"
  | .obj fields => "\x7b" ++ Json.renderObj fields ++ "\x7d"

/-- Comma-separated rendering of array elements. -/
def Json.renderList : List Json → String
  | [] => ""
  | [x] => x.render
  | x :: xs => x.render ++ "," ++ Json.renderList xs

/-- Comma-separated rendering of object members. -/
def Json.renderObj : List (String × Json) → String
  | [] => ""
  | [(k, v)] => "\"" ++ jsonEscape k ++ "\":" ++ v.render
  | (k, v) :: fs => "\"" ++ jsonEscape k ++ "\":" ++ v.render ++ "," ++ Json.renderObj fs
end

/-- `json.Unmarshal` of an object member into a Go `string` field: a missing
member or JSON `null` leaves the zero value `""`, a string member is taken
verbatim, any other member type is an unmarshal error (`none`).
(Go keeps the last duplicate key; the documents here have no duplicates.) -/
def getStringField (fields : List (String × Json)) (key : String) : Option String :=
  match fields.lookup key with
  | none => some ""
  | some .null => some ""
  | some (.str s) => some s
  | some _ => none

/-- `json.Unmarshal` of an object member into a Go `int` field. -/
def getIntField (fields : List (String × Json)) (key : String) : Option Int :=
  match fields.lookup key with
  | none => some 0
  | some .null => some 0
  | some (.num n) => some n
  | some _ => none

namespace Lenient

/-- `SnapshotMode` of snapshot.go (`Replay` is the zero value / default). -/
inductive SnapshotMode where
  | replay
  | record
  | bypass
deriving Repr, DecidableEq

/-- `APICall` of snapshot.go: one recorded interaction. The `response` string
of the Go struct is modelled by the JSON document it holds. -/
structure APICall where
  method : String
  url : String
  requestBody : String
  statusCode : Nat
  response : Json
  timestamp : Nat
deriving Repr

/-- `Snapshot` of snapshot.go: a named, ordered log of interactions. -/
structure Snapshot where
  testName : String
  calls : List APICall
  created : Nat
  updated : Nat
deriving Repr

/-- The mutable state of a `SnapshotGitHubClient` (snapshot.go). -/
structure SnapState where
  mode : SnapshotMode
  snapshotDir : String
  testName : String
  snapshot : Snapshot
  callIndex : Nat
deriving Repr

/-- `getSnapshotPath`'s sanitation: `strings.ReplaceAll(name, " ", "_")`
followed by `regexp [^a-zA-Z0-9_-]` replacing every non-matching character
with `"_"`. -/
def sanitizeTestName (testName : String) : String :=
  let replaced := String.mk (testName.data.map (fun c => if c = ' ' then '_' else c))
  String.mk (replaced.data.map
    (fun c => if c.isAlphanum || c = '_' || c = '-' then c else '_'))

/-- `getSnapshotPath`: joins the snapshot directory with the sanitized test
name plus `.json` (`filepath.Join(dir, name)` is `dir ++ "/" ++ name` for the
clean, slash-free directory values used here). -/
def getSnapshotPath (snapshotDir testName : String) : String :=
  snapshotDir ++ "/" ++ sanitizeTestName testName ++ ".json"

/-- `loadOrCreateSnapshot` of snapshot.go. In `Record` mode a fresh empty
snapshot is created; in EVERY other mode (including `Bypass`) the file is
loaded and a missing file is an error. `store` models the file system,
mapping a path to the parsed snapshot it holds, if any. -/
def loadOrCreateSnapshot (mode : SnapshotMode) (store : String → Option Snapshot)
    (snapshotDir testName : String) (now : Nat) : Except String Snapshot :=
  let snapshotPath := getSnapshotPath snapshotDir testName
  if mode = .record then
    .ok { testName := testName, calls := [], created := now, updated := now }
  else
    match store snapshotPath with
    | none => .error ("snapshot file not found: " ++ snapshotPath ++
        " (try running with SNAPSHOT_MODE=record to create it)")
    | some snapshot => .ok snapshot

/-- `saveSnapshot`: stamps `Updated` and writes the serialized snapshot.
The first component is the persisted content (the written document is the
deterministic serialization of this value). -/
def saveSnapshot (s : SnapState) (now : Nat) : Snapshot × SnapState :=
  let snap := { s.snapshot with updated := now }
  (snap, { s with snapshot := snap })

/-- `Close` of snapshot.go: saves the snapshot when in record mode, returns
without writing otherwise. `none` means no file was written. -/
def Close (s : SnapState) (now : Nat) : Option Snapshot × SnapState :=
  if s.mode = .record then
    let (content, s') := saveSnapshot s now
    (some content, s')
  else (none, s)

/-- `recordCall` of snapshot.go: appends an interaction, only in record mode. -/
def recordCall (s : SnapState) (method url requestBody : String)
    (statusCode : Nat) (response : Json) (now : Nat) : SnapState :=
  if s.mode ≠ .record then s
  else { s with snapshot := { s.snapshot with
          calls := s.snapshot.calls ++
            [{ method := method, url := url, requestBody := requestBody,
               statusCode := statusCode, response := response, timestamp := now }] } }

/-- The exhaustion message of `getNextCall` (`SnapshotExhausted` in the
spec's taxonomy): `"no more recorded calls available (call %d)"` with
`callIndex+1`. -/
def exhaustedMsg (call : Nat) : String :=
  "no more recorded calls available (call " ++ toString call ++ ")"

/-- `getNextCall` of snapshot.go: positional pop of the next interaction.
No validation of method or URL; the cursor advances only on a successful pop. -/
def getNextCall (s : SnapState) : Except String APICall × SnapState :=
  match s.snapshot.calls[s.callIndex]? with
  | none => (.error (exhaustedMsg (s.callIndex + 1)), s)
  | some call => (.ok call, { s with callIndex := s.callIndex + 1 })

/-- `json.Unmarshal` of a document into `struct { Error string }` as in the
replay error branch of `executeWithSnapshot`. -/
def unmarshalErrorResp (j : Json) : Option String :=
  match j with
  | .null => some ""
  | .obj fields => getStringField fields "error"
  | _ => none

/-- `executeWithSnapshot` of snapshot.go. `marshalResult` is what
`json.Marshal` produces for this operation's result type; `realFunc` is the
outcome of the real client's call; `parseResponse` is the operation's decoder
over the stored document. The record-mode error branch stores the document
written by `fmt.Sprintf("{\"error\": \"%s\"}", err)` (whitespace immaterial
at AST level; error texts here contain no quotes). -/
def executeWithSnapshot {α : Type} (operation : String) (marshalResult : α → Json)
    (realFunc : Except String α) (parseResponse : Json → Except String α)
    (s : SnapState) (now : Nat) : Except String α × SnapState :=
  match s.mode with
  | .bypass => (realFunc, s)
  | .record =>
    match realFunc with
    | .error err =>
      (.error err, recordCall s "API" operation "" 500 (.obj [("error", .str err)]) now)
    | .ok result =>
      (.ok result, recordCall s "API" operation "" 200 (marshalResult result) now)
  | .replay =>
    match getNextCall s with
    | (.error e, s') => (.error e, s')
    | (.ok call, s') =>
      if call.statusCode ≠ 200 then
        match unmarshalErrorResp call.response with
        | some msg => (.error msg, s')
        | none => (.error ("API error (status " ++ toString call.statusCode ++ ")"), s')
      else (parseResponse call.response, s')

/-- `GetUser` of snapshot.go: operation name `"GetUser"`, result type Go
`string` (marshalled as a JSON string literal), decoder the identity on the
stored response string — i.e. the rendered document. -/
def GetUser (s : SnapState) (realResult : Except String String) (now : Nat) :
    Except String String × SnapState :=
  executeWithSnapshot "GetUser" Json.str realResult
    (fun response => .ok response.render) s now

end Lenient

/-- `Project` of github.go (JSON tags `id`, `number`, `title`, `url`). -/
structure Project where
  ID : String
  Number : Int
  Title : String
  URL : String
deriving Repr, DecidableEq

/-- `ProjectFieldOption` of github.go (JSON tags `id`, `name`). -/
structure ProjectFieldOption where
  ID : String
  Name : String
deriving Repr, DecidableEq

/-- `ProjectField` of github.go (JSON tags `id`, `name`, `dataType`,
`options,omitempty`). The Go field `Type` is named `DataType` here because
`Type` is a Lean keyword. -/
structure ProjectField where
  ID : String
  Name : String
  DataType : String
  Options : List ProjectFieldOption
deriving Repr, DecidableEq

/-- `json.Marshal` of a `Project` value. -/
def marshalProject (p : Project) : Json :=
  .obj [("id", .str p.ID), ("number", .num p.Number),
        ("title", .str p.Title), ("url", .str p.URL)]

/-- `json.Unmarshal` of a document into a `Project`. -/
def unmarshalProject (j : Json) : Option Project :=
  match j with
  | .null => some { ID := "", Number := 0, Title := "", URL := "" }
  | .obj fields => do
    let id ← getStringField fields "id"
    let number ← getIntField fields "number"
    let title ← getStringField fields "title"
    let url ← getStringField fields "url"
    some { ID := id, Number := number, Title := title, URL := url }
  | _ => none

/-- `json.Unmarshal` of a document into a `ProjectFieldOption`. -/
def unmarshalProjectFieldOption (j : Json) : Option ProjectFieldOption :=
  match j with
  | .null => some { ID := "", Name := "" }
  | .obj fields => do
    let id ← getStringField fields "id"
    let name ← getStringField fields "name"
    some { ID := id, Name := name }
  | _ => none

/-- `json.Unmarshal` of a document into a `ProjectField` (a missing or null
`options` member leaves the nil slice). -/
def unmarshalProjectField (j : Json) : Option ProjectField :=
  match j with
  | .null => some { ID := "", Name := "", DataType := "", Options := [] }
  | .obj fields => do
    let id ← getStringField fields "id"
    let name ← getStringField fields "name"
    let ty ← getStringField fields "dataType"
    let options ← match fields.lookup "options" with
      | none => some []
      | some .null => some []
      | some (.arr elems) => elems.mapM unmarshalProjectFieldOption
      | some _ => none
    some { ID := id, Name := name, DataType := ty, Options := options }
  | _ => none

/-- `json.Unmarshal` of a document into `[]ProjectField`. -/
def unmarshalProjectFields (j : Json) : Option (List ProjectField) :=
  match j with
  | .null => some []
  | .arr elems => elems.mapM unmarshalProjectField
  | _ => none

namespace Lenient

/-- `FindProject` of snapshot.go: operation name `"FindProject"`, decoder
`json.Unmarshal` into a `Project`. -/
def FindProject (s : SnapState) (realResult : Except String Project) (now : Nat) :
    Except String Project × SnapState :=
  executeWithSnapshot "FindProject" marshalProject realResult
    (fun response =>
      match unmarshalProject response with
      | none => .error "json: cannot unmarshal value into Project"
      | some project => .ok project) s now

/-- `GetProjectFields` of snapshot.go: operation name `"GetProjectFields"`,
decoder `json.Unmarshal` into `[]ProjectField`. -/
def GetProjectFields (s : SnapState) (realResult : Except String (List ProjectField))
    (now : Nat) : Except String (List ProjectField) × SnapState :=
  executeWithSnapshot "GetProjectFields"
    (fun fields => .arr (fields.map (fun f =>
      .obj ([("id", .str f.ID), ("name", .str f.Name), ("dataType", .str f.DataType)] ++
        (if f.Options.isEmpty then [] else
          [("options", .arr (f.Options.map (fun o =>
            .obj [("id", .str o.ID), ("name", .str o.Name)])))])))))
    realResult
    (fun response =>
      match unmarshalProjectFields response with
      | none => .error "json: cannot unmarshal value into []ProjectField"
      | some fields => .ok fields) s now

end Lenient

namespace Strict

/-- `APICall` of the strict variant: adds an optional `headers` map, never
written by `recordCall` and never read by `replayCall`. -/
structure APICall where
  method : String
  url : String
  headers : List (String × String)
  requestBody : String
  statusCode : Nat
  response : Json
  timestamp : Nat
deriving Repr

/-- `Snapshot` of the strict variant. -/
structure Snapshot where
  testName : String
  calls : List APICall
  created : Nat
  updated : Nat
deriving Repr

/-- The mutable state of the strict variant's `SnapshotGitHubClient`. -/
structure SnapState where
  mode : Lenient.SnapshotMode
  snapshotDir : String
  currentTest : String
  snapshot : Snapshot
  callIndex : Nat
deriving Repr

/-- `getSnapshotFile` of the strict variant: replaces `" "` and `"/"` with
`"_"` and appends `.json` under the snapshot directory. -/
def getSnapshotFile (snapshotDir currentTest : String) : String :=
  let safeName := String.mk (currentTest.data.map
    (fun c => if c = ' ' then '_' else if c = '/' then '_' else c))
  snapshotDir ++ "/" ++ safeName ++ ".json"

/-- `loadOrCreateSnapshot` of the strict variant: loads only in `Replay`
mode (missing file is an error); in `Record` and `Bypass` mode it creates a
fresh empty snapshot. -/
def loadOrCreateSnapshot (mode : Lenient.SnapshotMode) (store : String → Option Snapshot)
    (snapshotDir currentTest : String) (now : Nat) : Except String Snapshot :=
  let snapshotFile := getSnapshotFile snapshotDir currentTest
  if mode = .replay then
    match store snapshotFile with
    | none => .error ("failed to read snapshot file " ++ snapshotFile ++
        " (try running with SNAPSHOT_MODE=record to create it)")
    | some snapshot => .ok snapshot
  else
    .ok { testName := currentTest, calls := [], created := now, updated := now }

/-- `saveSnapshot` of the strict variant: only saves in record mode. -/
def saveSnapshot (s : SnapState) (now : Nat) : Option Snapshot × SnapState :=
  if s.mode ≠ .record then (none, s)
  else
    let snap := { s.snapshot with updated := now }
    (some snap, { s with snapshot := snap })

/-- `Close` of the strict variant: unconditionally delegates to
`saveSnapshot` (which itself is a no-op outside record mode). -/
def Close (s : SnapState) (now : Nat) : Option Snapshot × SnapState :=
  saveSnapshot s now

/-- `recordCall` of the strict variant (no headers are ever recorded). -/
def recordCall (s : SnapState) (method url requestBody : String)
    (statusCode : Nat) (response : Json) (now : Nat) : SnapState :=
  if s.mode ≠ .record then s
  else { s with snapshot := { s.snapshot with
          calls := s.snapshot.calls ++
            [{ method := method, url := url, headers := [], requestBody := requestBody,
               statusCode := statusCode, response := response, timestamp := now }] } }

/-- The strict variant's exhaustion message:
`"no more recorded calls available (index %d >= %d calls)"`. -/
def exhaustedMsg (index calls : Nat) : String :=
  "no more recorded calls available (index " ++ toString index ++ " >= " ++
    toString calls ++ " calls)"

/-- The strict variant's `CallMismatch` message for methods. -/
def methodMismatchMsg (expected got : String) : String :=
  "method mismatch: expected " ++ expected ++ ", got " ++ got

/-- The strict variant's `CallMismatch` message for URLs. -/
def urlMismatchMsg (expected got : String) : String :=
  "URL mismatch: expected " ++ expected ++ ", got " ++ got

/-- `replayCall` of the strict variant: pops the interaction at the cursor
(advancing it), then validates recorded method and URL against the requested
ones, failing with a mismatch error AFTER the pop. The request body is not
validated (the source is deliberately lenient there). -/
def replayCall (s : SnapState) (method url _requestBody : String) :
    Except String (Nat × Json) × SnapState :=
  if s.mode ≠ .replay then (.error "not in replay mode", s)
  else
    match s.snapshot.calls[s.callIndex]? with
    | none => (.error (exhaustedMsg s.callIndex s.snapshot.calls.length), s)
    | some call =>
      let s' := { s with callIndex := s.callIndex + 1 }
      if call.method ≠ method then (.error (methodMismatchMsg call.method method), s')
      else if call.url ≠ url then (.error (urlMismatchMsg call.url url), s')
      else (.ok (call.statusCode, call.response), s')

/-- `json.Unmarshal` of a document into `struct { Login string }` as in the
strict variant's `GetUser`. -/
def unmarshalLoginResp (j : Json) : Option String :=
  match j with
  | .null => some ""
  | .obj fields => getStringField fields "login"
  | _ => none

/-- `GetUser` of the strict variant. In replay mode it calls
`replayCall("GET", "user", "")` and decodes the `login` member of the stored
document; in record/bypass mode the real call fills `struct { Login string }`
(outcome passed as `realResult`: the login on success), record mode stores
the marshalled struct with status 200, and a real-call failure is wrapped as
`"failed to get user: %w"`. -/
def GetUser (s : SnapState) (realResult : Except String String) (now : Nat) :
    Except String String × SnapState :=
  match s.mode with
  | .replay =>
    match replayCall s "GET" "user" "" with
    | (.error e, s') => (.error e, s')
    | (.ok (statusCode, responseBody), s') =>
      if statusCode ≠ 200 then
        (.error ("API error: status code " ++ toString statusCode), s')
      else
        match unmarshalLoginResp responseBody with
        | none => (.error "failed to parse response: json unmarshal error", s')
        | some login => (.ok login, s')
  | _ =>
    match realResult with
    | .error e => (.error ("failed to get user: " ++ e), s)
    | .ok login =>
      if s.mode = .record then
        (.ok login, recordCall s "GET" "user" "" 200 (.obj [("login", .str login)]) now)
      else (.ok login, s)

end Strict

/-! ## Derived scenario states and compositions -/

/-- The Log of spec Scenario 1, for the lenient variant: one interaction,
method `GET`, url `user`, status 200, response document `{"login":"alice"}`. -/
def scenario1Log : Lenient.Snapshot :=
  { testName := "GetUser",
    calls := [{ method := "GET", url := "user", requestBody := "",
                statusCode := 200, response := .obj [("login", .str "alice")],
                timestamp := 0 }],
    created := 0, updated := 0 }

/-- A replay-mode facade freshly loaded with `scenario1Log` (lenient). -/
def scenario1State : Lenient.SnapState :=
  { mode := .replay, snapshotDir := "testdata/snapshots", testName := "GetUser",
    snapshot := scenario1Log, callIndex := 0 }

/-- The Log of spec Scenario 1, for the strict variant. -/
def scenario1LogStrict : Strict.Snapshot :=
  { testName := "GetUser",
    calls := [{ method := "GET", url := "user", headers := [], requestBody := "",
                statusCode := 200, response := .obj [("login", .str "alice")],
                timestamp := 0 }],
    created := 0, updated := 0 }

/-- A replay-mode facade freshly loaded with `scenario1LogStrict`. -/
def scenario1StateStrict : Strict.SnapState :=
  { mode := .replay, snapshotDir := "testdata/snapshots", currentTest := "GetUser",
    snapshot := scenario1LogStrict, callIndex := 0 }

/-- A record-mode facade as constructed by `NewSnapshotGitHubClient` in
record mode (lenient): fresh empty snapshot, cursor 0. -/
def Lenient.emptyRecordState (testName : String) (t0 : Nat) : Lenient.SnapState :=
  { mode := .record, snapshotDir := "testdata/snapshots", testName := testName,
    snapshot := { testName := testName, calls := [], created := t0, updated := t0 },
    callIndex := 0 }

/-- Record `GetUser` (real result `R`) on a fresh record-mode facade, persist
the log via `Close`, then replay `GetUser` against the persisted log on a
fresh replay-mode facade (lenient variant end to end). -/
def Lenient.recordReplayGetUser (R : String) : Except String String :=
  let s0 := Lenient.emptyRecordState "GetUser" 0
  let s1 := (Lenient.GetUser s0 (.ok R) 1).2
  match (Lenient.Close s1 2).1 with
  | none => .error "nothing persisted"
  | some persisted =>
    let s2 : Lenient.SnapState :=
      { mode := .replay, snapshotDir := "testdata/snapshots", testName := "GetUser",
        snapshot := persisted, callIndex := 0 }
    (Lenient.GetUser s2 (.error "offline") 3).1

/-- Record `FindProject` (real result `p`) on a fresh record-mode facade,
persist, then replay it against the persisted log (lenient variant). -/
def Lenient.recordReplayFindProject (p : Project) : Except String Project :=
  let s0 := Lenient.emptyRecordState "FindProject" 0
  let s1 := (Lenient.FindProject s0 (.ok p) 1).2
  match (Lenient.Close s1 2).1 with
  | none => .error "nothing persisted"
  | some persisted =>
    let s2 : Lenient.SnapState :=
      { mode := .replay, snapshotDir := "testdata/snapshots", testName := "FindProject",
        snapshot := persisted, callIndex := 0 }
    (Lenient.FindProject s2 (.error "offline") 3).1

/-- A record-mode facade as constructed in record mode (strict variant). -/
def Strict.emptyRecordState (testName : String) (t0 : Nat) : Strict.SnapState :=
  { mode := .record, snapshotDir := "testdata/snapshots", currentTest := testName,
    snapshot := { testName := testName, calls := [], created := t0, updated := t0 },
    callIndex := 0 }

/-- Record `GetUser` (real login `R`) on a fresh record-mode facade, persist
via `Close`, then replay against the persisted log (strict variant). -/
def Strict.recordReplayGetUser (R : String) : Except String String :=
  let s0 := Strict.emptyRecordState "GetUser" 0
  let s1 := (Strict.GetUser s0 (.ok R) 1).2
  match (Strict.Close s1 2).1 with
  | none => .error "nothing persisted"
  | some persisted =>
    let s2 : Strict.SnapState :=
      { mode := .replay, snapshotDir := "testdata/snapshots", currentTest := "GetUser",
        snapshot := persisted, callIndex := 0 }
    (Strict.GetUser s2 (.error "offline") 3).1

/-! ## C1 — Scenario 1: replaying the identity lookup -/

/-- C1 counterexample. As stated the claim is false for the identity lookup
of snapshot.go (`SnapshotGitHubClient.GetUser` via `executeWithSnapshot`):
replaying against the Scenario 1 Log returns the RAW response document
`{"login":"alice"}` (the decoder is the identity on the stored string), not
the login `"alice"`. -/
theorem getUser_replay_scenario1_lenient_returns_raw_document :
    (Lenient.GetUser scenario1State (.error "offline") 1).1 =
      .ok ((Json.obj [("login", Json.str "alice")]).render) ∧
    (Json.obj [("login", Json.str "alice")]).render ≠ "alice" :=
  ⟨rfl, by decide⟩

/-- C1 (amended): replaying the identity lookup of the STRICT variant
(`part_002`'s `SnapshotGitHubClient.GetUser`) against the Scenario 1 Log
returns the login string `"alice"`, decoded out of the stored document. -/
theorem getUser_replay_scenario1_strict_returns_login :
    (Strict.GetUser scenario1StateStrict (.error "offline") 1).1 = .ok "alice" :=
  rfl

/-! ## C3 — Bypass mode and Log materialization -/

/-- C3: in Bypass mode, snapshot.go's `loadOrCreateSnapshot` takes the same
load path as Replay mode, so facade construction FAILS when no snapshot file
exists — contradicting the claim (and the code's own comment and the bypass
documentation). The strict variant instead materializes a fresh empty Log in
Bypass mode. -/
theorem bypass_construction_requires_snapshot_file :
    Lenient.loadOrCreateSnapshot .bypass (fun _ => none) "testdata/snapshots" "GetUser" 0 =
      .error ("snapshot file not found: testdata/snapshots/GetUser.json" ++
        " (try running with SNAPSHOT_MODE=record to create it)") ∧
    Strict.loadOrCreateSnapshot .bypass (fun _ => none) "testdata/snapshots" "GetUser" 0 =
      .ok { testName := "GetUser", calls := [], created := 0, updated := 0 } :=
  ⟨rfl, rfl⟩

/-! ## C5 — snapshot path derivation -/

/-- C5 counterexample: `getSnapshotPath` is NOT collision-resistant — the
distinct scenario names `"a b"` and `"a_b"` derive the same path. -/
theorem snapshotPath_collision :
    Lenient.getSnapshotPath "testdata/snapshots" "a b" =
      Lenient.getSnapshotPath "testdata/snapshots" "a_b" ∧
    ("a b" : String) ≠ "a_b" :=
  ⟨rfl, by decide⟩

/-- C5 (amended): `getSnapshotPath` is deterministic (a pure function of the
base directory and scenario name), the derived path is
`{baseDirectory}/{sanitize(test_name)}.json`, and the sanitized token is
filesystem-safe (only `[a-zA-Z0-9_-]` characters) — but it is not
collision-resistant. -/
theorem snapshotPath_deterministic_convention (snapshotDir testName : String) :
    Lenient.getSnapshotPath snapshotDir testName =
      snapshotDir ++ "/" ++ Lenient.sanitizeTestName testName ++ ".json" ∧
    (Lenient.sanitizeTestName testName).data.all
      (fun c => c.isAlphanum || c = '_' || c = '-') = true := by
  refine ⟨rfl, ?_⟩
  rw [List.all_eq_true]
  intro c hc
  have hdata : (Lenient.sanitizeTestName testName).data =
      (testName.data.map (fun c => if c = ' ' then '_' else c)).map
        (fun c => if c.isAlphanum || c = '_' || c = '-' then c else '_') := rfl
  rw [hdata] at hc
  obtain ⟨a, _, rfl⟩ := List.mem_map.1 hc
  by_cases h : (a.isAlphanum || a = '_' || a = '-') = true
  · rw [if_pos h]; exact h
  · rw [if_neg h]; decide

/-! ## C2 — record/replay round trip -/

/-- C2 counterexample. The round trip fails in the lenient variant for the
identity lookup: recording `GetUser` with result `"alice"` stores the JSON
serialization `"alice"` (with quotes) of the Go string, but the replay
decoder is the identity on the stored document, so the replayed value is the
quoted serialization, not `"alice"`. -/
theorem roundtrip_getUser_lenient_counterexample :
    Lenient.recordReplayGetUser "alice" = .ok "\"alice\"" ∧
    ("\"alice\"" : String) ≠ "alice" :=
  ⟨rfl, by decide⟩

/-- C2 (amended): the round trip holds for operations whose replay decoder
parses the recorded serialization — the strict variant's identity lookup and
the lenient variant's JSON-decoded operations (here: `FindProject`) — while
for the lenient variant's identity-decoded `GetUser` the replayed value is
the JSON serialization of `R` rather than `R` itself. -/
theorem roundtrip_record_then_replay (R : String) (p : Project) :
    Strict.recordReplayGetUser R = .ok R ∧
    Lenient.recordReplayFindProject p = .ok p ∧
    Lenient.recordReplayGetUser R = .ok ((Json.str R).render) :=
  ⟨rfl, rfl, rfl⟩

/-! ## C4 — idempotent close -/

/-- A record-mode facade state used to exhibit the close-twice behavior. -/
def closeTwiceState : Lenient.SnapState :=
  { mode := .record, snapshotDir := "testdata/snapshots", testName := "T",
    snapshot := { testName := "T", calls := [], created := 0, updated := 0 },
    callIndex := 0 }

/-- C4 counterexample: two record-mode closes at successive instants persist
DIFFERENT content — the second write differs in the `updated` timestamp,
which `saveSnapshot` stamps with `time.Now()` on every call. -/
theorem close_twice_record_content_differs :
    (Lenient.Close closeTwiceState 1).1 =
      some { testName := "T", calls := [], created := 0, updated := 1 } ∧
    (Lenient.Close (Lenient.Close closeTwiceState 1).2 2).1 =
      some { testName := "T", calls := [], created := 0, updated := 2 } ∧
    ({ testName := "T", calls := [], created := 0, updated := 1 } : Lenient.Snapshot) ≠
      { testName := "T", calls := [], created := 0, updated := 2 } := by
  refine ⟨rfl, rfl, fun h => ?_⟩
  have := congrArg Lenient.Snapshot.updated h
  simp at this

/-- C4 (amended): close is a no-op (no write, state unchanged) both times in
Replay and Bypass mode, in both variants; in Record mode both closes persist
content identical in scenario name, recorded calls and creation time —
identical outright when invoked at the same instant — differing only in the
`updated` timestamp. -/
theorem close_idempotent (s : Lenient.SnapState) (u : Strict.SnapState) (t1 t2 : Nat) :
    ((s.mode = .replay ∨ s.mode = .bypass) →
      Lenient.Close s t1 = (none, s) ∧
      Lenient.Close (Lenient.Close s t1).2 t2 = (none, s)) ∧
    (s.mode = .record →
      ∃ c1 c2, (Lenient.Close s t1).1 = some c1 ∧
        (Lenient.Close (Lenient.Close s t1).2 t2).1 = some c2 ∧
        c1.testName = c2.testName ∧ c1.calls = c2.calls ∧ c1.created = c2.created ∧
        (t1 = t2 → c1 = c2)) ∧
    ((u.mode = .replay ∨ u.mode = .bypass) →
      Strict.Close u t1 = (none, u) ∧
      Strict.Close (Strict.Close u t1).2 t2 = (none, u)) ∧
    (u.mode = .record →
      ∃ c1 c2, (Strict.Close u t1).1 = some c1 ∧
        (Strict.Close (Strict.Close u t1).2 t2).1 = some c2 ∧
        c1.testName = c2.testName ∧ c1.calls = c2.calls ∧ c1.created = c2.created ∧
        (t1 = t2 → c1 = c2)) := by
  refine ⟨?_, ?_, ?_, ?_⟩
  · intro h
    have hm : s.mode ≠ .record := by rcases h with h | h <;> simp [h]
    simp [Lenient.Close, hm]
  · intro h
    refine ⟨{ s.snapshot with updated := t1 }, { s.snapshot with updated := t2 },
      ?_, ?_, rfl, rfl, rfl, ?_⟩
    · simp [Lenient.Close, Lenient.saveSnapshot, h]
    · simp [Lenient.Close, Lenient.saveSnapshot, h]
    · intro he; rw [he]
  · intro h
    have hm : u.mode ≠ .record := by rcases h with h | h <;> simp [h]
    simp [Strict.Close, Strict.saveSnapshot, hm]
  · intro h
    refine ⟨{ u.snapshot with updated := t1 }, { u.snapshot with updated := t2 },
      ?_, ?_, rfl, rfl, rfl, ?_⟩
    · simp [Strict.Close, Strict.saveSnapshot, h]
    · simp [Strict.Close, Strict.saveSnapshot, h]
    · intro he; rw [he]

/-- C4 witness: the close-idempotence theorem applied at a concrete
replay-mode state and a concrete record-mode state. -/
theorem close_idempotent_witness :
    (Lenient.Close scenario1State 1 = (none, scenario1State) ∧
      Lenient.Close (Lenient.Close scenario1State 1).2 2 = (none, scenario1State)) ∧
    (∃ c1 c2, (Strict.Close (Strict.emptyRecordState "T" 0) 1).1 = some c1 ∧
      (Strict.Close (Strict.Close (Strict.emptyRecordState "T" 0) 1).2 2).1 = some c2 ∧
      c1.testName = c2.testName ∧ c1.calls = c2.calls ∧ c1.created = c2.created ∧
      (1 = 2 → c1 = c2)) :=
  ⟨(close_idempotent scenario1State (Strict.emptyRecordState "T" 0) 1 2).1 (Or.inl rfl),
   (close_idempotent scenario1State (Strict.emptyRecordState "T" 0) 1 2).2.2.2 rfl⟩

/-! ## Cursor iteration helpers -/

/-- Iterates `getNextCall` (the lenient replayer's pop) `n` times, keeping
only the state: the state after `n` replay invocations. -/
def Lenient.replayN : Lenient.SnapState → Nat → Lenient.SnapState
  | s, 0 => s
  | s, n + 1 => Lenient.replayN (Lenient.getNextCall s).2 n

/-- A pop with the cursor in range succeeds positionally and advances the
cursor by one. -/
theorem getNextCall_in_range (s : Lenient.SnapState)
    (h : s.callIndex < s.snapshot.calls.length) :
    Lenient.getNextCall s =
      (.ok (s.snapshot.calls.get ⟨s.callIndex, h⟩),
       { s with callIndex := s.callIndex + 1 }) := by
  unfold Lenient.getNextCall
  rw [List.getElem?_eq_getElem h]
  rfl

/-- A pop with the cursor past the end fails with the exhaustion error and
leaves the state unchanged. -/
theorem getNextCall_exhausted (s : Lenient.SnapState)
    (h : s.snapshot.calls.length ≤ s.callIndex) :
    Lenient.getNextCall s = (.error (Lenient.exhaustedMsg (s.callIndex + 1)), s) := by
  unfold Lenient.getNextCall
  rw [List.getElem?_eq_none h]

/-- While the cursor stays in range, `n` replay invocations advance it by
exactly `n` and touch nothing else. -/
theorem replayN_spec : ∀ (n : Nat) (s : Lenient.SnapState),
    s.callIndex + n ≤ s.snapshot.calls.length →
    Lenient.replayN s n = { s with callIndex := s.callIndex + n }
  | 0, s, _ => rfl
  | n + 1, s, h => by
    have hlt : s.callIndex < s.snapshot.calls.length := by omega
    show Lenient.replayN (Lenient.getNextCall s).2 n = _
    rw [getNextCall_in_range s hlt]
    rw [replayN_spec n { s with callIndex := s.callIndex + 1 }
      (show s.callIndex + 1 + n ≤ s.snapshot.calls.length by omega)]
    show ({ s with callIndex := s.callIndex + 1 + n } : Lenient.SnapState) = _
    rw [show s.callIndex + 1 + n = s.callIndex + (n + 1) by omega]

/-! ## C6 — exhaustion -/

/-- When the log is empty, every pop fails and the state never changes. -/
theorem replayN_empty (snap : Lenient.Snapshot) (hsnap : snap.calls = [])
    (dir tn : String) (mode : Lenient.SnapshotMode) :
    ∀ k, Lenient.replayN ⟨mode, dir, tn, snap, 0⟩ k = ⟨mode, dir, tn, snap, 0⟩ := by
  intro k
  induction k with
  | zero => rfl
  | succ k ih =>
    show Lenient.replayN (Lenient.getNextCall ⟨mode, dir, tn, snap, 0⟩).2 k = _
    rw [getNextCall_exhausted ⟨mode, dir, tn, snap, 0⟩ (by simp [hsnap])]
    exact ih

/-- C6: for a Log with `N` interactions, each of the first `N` replay
invocations pops exactly one interaction (the `k`-th pop returns entry `k`
and moves the cursor from `k` to `k+1`); the `(N+1)`-th invocation fails with
the `SnapshotExhausted` error; and with an empty interaction list EVERY
invocation immediately fails with that error. -/
theorem replay_exhaustion (snap : Lenient.Snapshot) (dir tn : String)
    (mode : Lenient.SnapshotMode) :
    (∀ k (h : k < snap.calls.length),
      Lenient.getNextCall (Lenient.replayN ⟨mode, dir, tn, snap, 0⟩ k) =
        (.ok (snap.calls.get ⟨k, h⟩), Lenient.replayN ⟨mode, dir, tn, snap, 0⟩ (k + 1)) ∧
      (Lenient.replayN ⟨mode, dir, tn, snap, 0⟩ (k + 1)).callIndex = k + 1) ∧
    (Lenient.getNextCall
        (Lenient.replayN ⟨mode, dir, tn, snap, 0⟩ snap.calls.length)).1 =
      .error (Lenient.exhaustedMsg (snap.calls.length + 1)) ∧
    (snap.calls = [] → ∀ k,
      (Lenient.getNextCall (Lenient.replayN ⟨mode, dir, tn, snap, 0⟩ k)).1 =
        .error (Lenient.exhaustedMsg 1)) := by
  have hbase : ∀ k, k ≤ snap.calls.length →
      Lenient.replayN ⟨mode, dir, tn, snap, 0⟩ k =
        ({ mode := mode, snapshotDir := dir, testName := tn, snapshot := snap,
           callIndex := k } : Lenient.SnapState) := by
    intro k hk
    rw [replayN_spec k ⟨mode, dir, tn, snap, 0⟩ (by simpa using hk)]
    show ({ mode := mode, snapshotDir := dir, testName := tn, snapshot := snap,
            callIndex := 0 + k } : Lenient.SnapState) = _
    rw [Nat.zero_add]
  refine ⟨?_, ?_, ?_⟩
  · intro k h
    rw [hbase k (Nat.le_of_lt h), hbase (k + 1) h]
    exact ⟨getNextCall_in_range _ h, rfl⟩
  · rw [hbase snap.calls.length (Nat.le_refl _)]
    rw [getNextCall_exhausted _ (Nat.le_refl _)]
  · intro hsnap k
    rw [replayN_empty snap hsnap dir tn mode k]
    rw [getNextCall_exhausted _ (by simp [hsnap])]

/-- C6 witness: the exhaustion theorem applied to the concrete one-entry
Scenario 1 Log — the first pop yields the single recorded interaction, the
second pop fails with the exhaustion error. -/
theorem replay_exhaustion_witness :
    (Lenient.getNextCall
        (Lenient.replayN ⟨.replay, "testdata/snapshots", "GetUser", scenario1Log, 0⟩ 0) =
      (.ok (scenario1Log.calls.get ⟨0, by decide⟩),
       Lenient.replayN ⟨.replay, "testdata/snapshots", "GetUser", scenario1Log, 0⟩ 1)) ∧
    (Lenient.getNextCall
        (Lenient.replayN ⟨.replay, "testdata/snapshots", "GetUser", scenario1Log,
          0⟩ scenario1Log.calls.length)).1 =
      .error (Lenient.exhaustedMsg (scenario1Log.calls.length + 1)) :=
  ⟨((replay_exhaustion scenario1Log "testdata/snapshots" "GetUser" .replay).1 0
      (by decide)).1,
   (replay_exhaustion scenario1Log "testdata/snapshots" "GetUser" .replay).2.1⟩

/-! ## C7 — cursor monotonicity and Scenario 4 -/

/-- The two-entry Log of spec Scenario 4: a discovery interaction followed by
a schema-retrieval interaction, as recorded by the lenient recorder. -/
def scenario4Log : Lenient.Snapshot :=
  { testName := "EndToEnd",
    calls := [
      { method := "API", url := "FindProject", requestBody := "", statusCode := 200,
        response := .obj [("id", .str "PVT_1"), ("number", .num 7),
          ("title", .str "Roadmap"), ("url", .str "https://example.com/orgs/acme/projects/7")],
        timestamp := 0 },
      { method := "API", url := "GetProjectFields", requestBody := "", statusCode := 200,
        response := .arr [.obj [("id", .str "f1"), ("name", .str "Status"),
          ("dataType", .str "SINGLE_SELECT"),
          ("options", .arr [.obj [("id", .str "o1"), ("name", .str "Todo")]])]],
        timestamp := 0 }],
    created := 0, updated := 0 }

/-- A replay-mode facade freshly loaded with `scenario4Log`. -/
def scenario4State : Lenient.SnapState :=
  { mode := .replay, snapshotDir := "testdata/snapshots", testName := "EndToEnd",
    snapshot := scenario4Log, callIndex := 0 }

/-- First Scenario 4 replay: the discovery operation. -/
def scenario4First : Except String Project × Lenient.SnapState :=
  Lenient.FindProject scenario4State (.error "offline") 1

/-- Second Scenario 4 replay: the schema-retrieval operation, continuing
from the state after the first. -/
def scenario4Second : Except String (List ProjectField) × Lenient.SnapState :=
  Lenient.GetProjectFields scenario4First.2 (.error "offline") 2

/-- The project value stored in the first Scenario 4 entry. -/
def scenario4Project : Project :=
  { ID := "PVT_1"
    Number := 7
    Title := "Roadmap"
    URL := "https://example.com/orgs/acme/projects/7" }

/-- The field schema stored in the second Scenario 4 entry. -/
def scenario4Fields : List ProjectField :=
  [{ ID := "f1"
     Name := "Status"
     DataType := "SINGLE_SELECT"
     Options := [{ ID := "o1", Name := "Todo" }] }]

/-- C7: the replay cursor never decreases; a pop advances it by exactly one
when an interaction is available and leaves it unchanged otherwise; in
replay mode `executeWithSnapshot` leaves exactly the popped state regardless
of which outcome branch is taken (success, reconstructed error, or decode
failure); and replaying discovery then schema retrieval against the
two-entry Scenario 4 Log consumes the entries in file order, leaving the
cursor at 2. -/
theorem cursor_monotone_advance :
    (∀ s : Lenient.SnapState, s.callIndex ≤ ((Lenient.getNextCall s).2).callIndex) ∧
    (∀ s : Lenient.SnapState, ((Lenient.getNextCall s).2).callIndex =
      if s.callIndex < s.snapshot.calls.length then s.callIndex + 1 else s.callIndex) ∧
    (∀ (α : Type) (operation : String) (marshalResult : α → Json)
        (realFunc : Except String α) (parseResponse : Json → Except String α)
        (s : Lenient.SnapState) (now : Nat), s.mode = .replay →
      (Lenient.executeWithSnapshot operation marshalResult realFunc parseResponse s now).2 =
        (Lenient.getNextCall s).2) ∧
    (scenario4First.1 = .ok scenario4Project ∧
      scenario4Second.1 = .ok scenario4Fields ∧
      scenario4First.2.callIndex = 1 ∧ scenario4Second.2.callIndex = 2) := by
  have hpop : ∀ s : Lenient.SnapState, ((Lenient.getNextCall s).2).callIndex =
      if s.callIndex < s.snapshot.calls.length then s.callIndex + 1 else s.callIndex := by
    intro s
    by_cases h : s.callIndex < s.snapshot.calls.length
    · rw [getNextCall_in_range s h, if_pos h]
    · rw [getNextCall_exhausted s (Nat.le_of_not_lt h), if_neg h]
  refine ⟨?_, hpop, ?_, rfl, rfl, rfl, rfl⟩
  · intro s
    rw [hpop s]
    split <;> omega
  · intro α operation marshalResult realFunc parseResponse s now h
    unfold Lenient.executeWithSnapshot
    rw [h]
    rcases hg : Lenient.getNextCall s with ⟨res, s'⟩
    cases res with
    | error e => rfl
    | ok call =>
      show (if call.statusCode ≠ 200 then _ else _ : Except String α × _).2 = _
      split
      · show (match Lenient.unmarshalErrorResp call.response with
          | some msg => ((.error msg : Except String α), s')
          | none => (.error _, s')).2 = s'
        rcases Lenient.unmarshalErrorResp call.response with _ | msg <;> rfl
      · rfl

/-- C7 witness: the cursor theorem's replay-dispatch conjunct applied at the
Scenario 1 state with the identity-lookup decoder. -/
theorem cursor_monotone_advance_witness :
    (Lenient.executeWithSnapshot "GetUser" Json.str (.error "offline")
        (fun response => .ok response.render) scenario1State 1).2 =
      (Lenient.getNextCall scenario1State).2 :=
  cursor_monotone_advance.2.2.1 String "GetUser" Json.str (.error "offline")
    (fun response => .ok response.render) scenario1State 1 rfl

/-! ## C8 — recording an upstream failure -/

/-- The interaction appended by the lenient recorder's failure branch:
`recordCall("API", operation, "", 500, sprintf error payload)`. -/
def errorInteraction (operation e : String) (now : Nat) : Lenient.APICall :=
  { method := "API"
    url := operation
    requestBody := ""
    statusCode := 500
    response := .obj [("error", .str e)]
    timestamp := now }

/-- C8: when the real client's call fails in record mode, the recorder
returns that error to the caller unmodified, appends exactly one interaction
with status 500 and the serialized error payload, and `Close` persists a log
containing exactly that appended interaction. -/
theorem record_error_propagation (α : Type) (operation : String)
    (marshalResult : α → Json) (parseResponse : Json → Except String α)
    (e : String) (s : Lenient.SnapState) (now tClose : Nat)
    (h : s.mode = .record) :
    (Lenient.executeWithSnapshot operation marshalResult (.error e) parseResponse s now).1 =
      .error e ∧
    (Lenient.executeWithSnapshot operation marshalResult (.error e) parseResponse
        s now).2.snapshot.calls =
      s.snapshot.calls ++ [errorInteraction operation e now] ∧
    ∃ persisted,
      (Lenient.Close (Lenient.executeWithSnapshot operation marshalResult (.error e)
          parseResponse s now).2 tClose).1 = some persisted ∧
      persisted.calls = s.snapshot.calls ++ [errorInteraction operation e now] := by
  refine ⟨?_, ?_, ?_⟩
  · simp [Lenient.executeWithSnapshot, h]
  · simp [Lenient.executeWithSnapshot, Lenient.recordCall, errorInteraction, h]
  · refine ⟨{ s.snapshot with
        calls := s.snapshot.calls ++ [errorInteraction operation e now]
        updated := tClose }, ?_, rfl⟩
    simp [Lenient.executeWithSnapshot, Lenient.recordCall, Lenient.Close,
      Lenient.saveSnapshot, errorInteraction, h]

/-- C8 witness: the record-failure theorem at a concrete transport error on
a fresh record-mode facade. -/
theorem record_error_propagation_witness :
    (Lenient.executeWithSnapshot "GetUser" Json.str (.error "connection refused")
        (fun response => .ok response.render) (Lenient.emptyRecordState "GetUser" 0) 5).1 =
      .error "connection refused" ∧
    (Lenient.executeWithSnapshot "GetUser" Json.str (.error "connection refused")
        (fun response => .ok response.render)
        (Lenient.emptyRecordState "GetUser" 0) 5).2.snapshot.calls =
      (Lenient.emptyRecordState "GetUser" 0).snapshot.calls ++
        [errorInteraction "GetUser" "connection refused" 5] ∧
    ∃ persisted,
      (Lenient.Close (Lenient.executeWithSnapshot "GetUser" Json.str
          (.error "connection refused") (fun response => .ok response.render)
          (Lenient.emptyRecordState "GetUser" 0) 5).2 9).1 = some persisted ∧
      persisted.calls =
        (Lenient.emptyRecordState "GetUser" 0).snapshot.calls ++
          [errorInteraction "GetUser" "connection refused" 5] :=
  record_error_propagation String "GetUser" Json.str
    (fun response => .ok response.render) "connection refused"
    (Lenient.emptyRecordState "GetUser" 0) 5 9 rfl

/-! ## C9 — strict versus lenient replay matching -/

/-- C9: the strict variant's `replayCall` consumes the interaction at the
cursor and then validates its recorded method and URL against the requested
ones, failing with the respective mismatch error AFTER advancing the cursor;
the lenient variant's `getNextCall` consumes purely by position, succeeding
with the stored entry no matter what its method or URL are. -/
theorem strict_matching_vs_lenient (s : Strict.SnapState) (m u rb : String)
    (call : Strict.APICall) (hmode : s.mode = .replay)
    (hcall : s.snapshot.calls[s.callIndex]? = some call) :
    (call.method ≠ m →
      Strict.replayCall s m u rb =
        (.error (Strict.methodMismatchMsg call.method m),
         { s with callIndex := s.callIndex + 1 })) ∧
    (call.method = m → call.url ≠ u →
      Strict.replayCall s m u rb =
        (.error (Strict.urlMismatchMsg call.url u),
         { s with callIndex := s.callIndex + 1 })) ∧
    (call.method = m → call.url = u →
      Strict.replayCall s m u rb =
        (.ok (call.statusCode, call.response),
         { s with callIndex := s.callIndex + 1 })) ∧
    (∀ (t : Lenient.SnapState) (lcall : Lenient.APICall),
      t.snapshot.calls[t.callIndex]? = some lcall →
      Lenient.getNextCall t = (.ok lcall, { t with callIndex := t.callIndex + 1 })) := by
  refine ⟨?_, ?_, ?_, ?_⟩
  · intro hne
    unfold Strict.replayCall
    rw [hcall]
    simp [hmode, hne]
  · intro hme hne
    unfold Strict.replayCall
    rw [hcall]
    simp [hmode, hme, hne]
  · intro hme hu
    unfold Strict.replayCall
    rw [hcall]
    simp [hmode, hme, hu]
  · intro t lcall hl
    unfold Lenient.getNextCall
    rw [hl]

/-- An interaction as the lenient recorder would have written it for the
identity lookup, viewed through the strict variant's log format. -/
def recordedApiInteraction : Strict.APICall :=
  { method := "API"
    url := "GetUser"
    headers := []
    requestBody := ""
    statusCode := 200
    response := .str "alice"
    timestamp := 0 }

/-- A strict replay-mode facade whose log holds `recordedApiInteraction`. -/
def mismatchState : Strict.SnapState :=
  { mode := .replay
    snapshotDir := "testdata/snapshots"
    currentTest := "GetUser"
    snapshot := { testName := "GetUser", calls := [recordedApiInteraction],
                  created := 0, updated := 0 }
    callIndex := 0 }

/-- C9 witness: a strict replay requesting `GET user` against an interaction
recorded as `API GetUser` fails with the method-mismatch error while still
consuming the entry; the lenient pop on the Scenario 1 state succeeds
positionally. -/
theorem strict_matching_vs_lenient_witness :
    Strict.replayCall mismatchState "GET" "user" "" =
      (.error (Strict.methodMismatchMsg "API" "GET"),
       { mismatchState with callIndex := 0 + 1 }) ∧
    Lenient.getNextCall scenario1State =
      (.ok (scenario1Log.calls.get ⟨0, by decide⟩),
       { scenario1State with callIndex := 0 + 1 }) :=
  ⟨(strict_matching_vs_lenient mismatchState "GET" "user" ""
      recordedApiInteraction rfl rfl).1 (by decide),
   (strict_matching_vs_lenient scenario1StateStrict "GET" "user" ""
      (scenario1LogStrict.calls.get ⟨0, by decide⟩) rfl rfl).2.2.2
      scenario1State (scenario1Log.calls.get ⟨0, by decide⟩) rfl⟩

/-! ## C10 — shape of leniently recorded interactions -/

/-- The interaction appended by the lenient recorder's success branch:
`recordCall("API", operation, "", 200, marshalled result)`. -/
def successInteraction (operation : String) (response : Json) (now : Nat) :
    Lenient.APICall :=
  { method := "API"
    url := operation
    requestBody := ""
    statusCode := 200
    response := response
    timestamp := now }

/-- C10: every interaction the lenient recorder appends — on success or on
failure — has method exactly `"API"`, url equal to the logical operation
name, and an empty request body; and any interaction whose recorded method
is `"API"` can never pass the strict variant's method validation, which only
ever requests `"GET"` (identity lookup) or `"POST"` (GraphQL calls). -/
theorem lenient_recorder_shape (α : Type) (operation : String)
    (marshalResult : α → Json) (parseResponse : Json → Except String α)
    (realFunc : Except String α) (s : Lenient.SnapState) (now : Nat)
    (h : s.mode = .record) :
    (∃ c : Lenient.APICall,
      (Lenient.executeWithSnapshot operation marshalResult realFunc parseResponse
          s now).2.snapshot.calls = s.snapshot.calls ++ [c] ∧
      c.method = "API" ∧ c.url = operation ∧ c.requestBody = "") ∧
    (∀ (t : Strict.SnapState) (sc : Strict.APICall) (u rb m : String),
      t.mode = .replay → t.snapshot.calls[t.callIndex]? = some sc →
      sc.method = "API" → (m = "GET" ∨ m = "POST") →
      (Strict.replayCall t m u rb).1 = .error (Strict.methodMismatchMsg "API" m)) := by
  constructor
  · cases realFunc with
    | error e =>
      refine ⟨errorInteraction operation e now, ?_, rfl, rfl, rfl⟩
      simp [Lenient.executeWithSnapshot, Lenient.recordCall, errorInteraction, h]
    | ok result =>
      refine ⟨successInteraction operation (marshalResult result) now, ?_, rfl, rfl, rfl⟩
      simp [Lenient.executeWithSnapshot, Lenient.recordCall, successInteraction, h]
  · intro t sc u rb m hmode hcall hapi hm
    unfold Strict.replayCall
    rw [hcall]
    have hne : sc.method ≠ m := by
      rcases hm with hm | hm <;> rw [hapi, hm] <;> decide
    simp [hmode, hne, hapi]
    rw [if_neg (hapi ▸ hne)]

/-- C10 witness: recording a successful identity lookup on a fresh
record-mode facade appends an `API GetUser` interaction with an empty
request body, and the strict variant's `GET` request fails against an
`API`-tagged interaction. -/
theorem lenient_recorder_shape_witness :
    (∃ c : Lenient.APICall,
      (Lenient.executeWithSnapshot "GetUser" Json.str (.ok "alice")
          (fun response => .ok response.render)
          (Lenient.emptyRecordState "GetUser" 0) 5).2.snapshot.calls =
        (Lenient.emptyRecordState "GetUser" 0).snapshot.calls ++ [c] ∧
      c.method = "API" ∧ c.url = "GetUser" ∧ c.requestBody = "") ∧
    (Strict.replayCall mismatchState "GET" "user" "").1 =
      .error (Strict.methodMismatchMsg "API" "GET") :=
  ⟨(lenient_recorder_shape String "GetUser" Json.str
      (fun response => .ok response.render) (.ok "alice")
      (Lenient.emptyRecordState "GetUser" 0) 5 rfl).1,
   (lenient_recorder_shape String "GetUser" Json.str
      (fun response => .ok response.render) (.ok "alice")
      (Lenient.emptyRecordState "GetUser" 0) 5 rfl).2
      mismatchState recordedApiInteraction "user" "" "GET" rfl rfl rfl (Or.inl rfl)⟩
